import Mathlib

/-!
Shallow embedding of the combat / progression core of the RPG repository
(player.py, enemy.py, combat_system.py).

Modelling conventions:
* Python ints are modelled as `ℤ` (or `ℕ` where the source only ever holds
  non-negative values: level, experience, experience_to_next).
* Python floats are modelled as `ℚ`.  All float constants appearing in the
  source (1.5, 0.5, 1.2, 1.30, 0.10, 0.15, 0.3, ...) are written as the
  corresponding rationals; for every concrete input used in a theorem below
  the comparisons and truncations involved are far from the rounding error
  of binary64, so the `ℚ` model agrees with CPython's float semantics there.
* `int(x)` on a float truncates toward zero: `pytrunc`.
* Randomness (`random.random()`, `random.randint`, `random.choice`) is
  modelled by an explicit stream of draw values (`RNG`) consumed in source
  order; `random.random()` draws are rationals in `[0,1)` and
  `random.randint(a,b)` draws are clamped into `[a,b]`.
* Console / GUI output, logging and the bestiary-discovery notification are
  side effects with no influence on combat state and are not modelled.
-/

/-- Python `int(x)` applied to a float: truncation toward zero. -/
def pytrunc (q : ℚ) : ℤ := if 0 ≤ q then ⌊q⌋ else ⌈q⌉

/-- Stream of pseudo-random draw values: `floats` feeds `random.random()`
(values in `[0,1)`), `ints` feeds `random.randint` / `random.choice`. -/
structure RNG where
  floats : List ℚ
  ints : List ℤ
deriving DecidableEq, Repr

/-- Draw the next `random.random()` value (0 once the stream is exhausted). -/
def RNG.nextFloat (g : RNG) : ℚ × RNG :=
  match g.floats with
  | [] => (0, g)
  | r :: rs => (r, { g with floats := rs })

/-- Draw the next raw integer value (0 once the stream is exhausted). -/
def RNG.nextInt (g : RNG) : ℤ × RNG :=
  match g.ints with
  | [] => (0, g)
  | r :: rs => (r, { g with ints := rs })

/-- `random.randint(a, b)`: the drawn value is clamped into `[a, b]`
(the source only calls it with `a ≤ b`; a well-formed stream supplies a
value already in range).  Bounds are `ℚ` because the player-side callers
pass float stat values. -/
def pyRandint (a b : ℚ) (g : RNG) : ℚ × RNG :=
  let (r, g') := g.nextInt
  (max a (min b (r : ℚ)), g')

/-- `random.choice` over a list of length `n`: an index in `[0, n)`. -/
def pyChoiceIdx (n : ℕ) (g : RNG) : ℕ × RNG :=
  let (r, g') := g.nextInt
  (r.natAbs % n, g')

/-! ## player.py: data model -/

/-- `MainStats` (player.py): primary character statistics. -/
structure MainStats where
  strength : ℤ := 2
  vitality : ℤ := 2
  wisdom : ℤ := 2
  intelligence : ℤ := 2
  agility : ℤ := 2
  dexterity : ℤ := 2
  luck : ℤ := 1
  speed : ℤ := 2
deriving DecidableEq, Repr

/-- `SecondaryStats` (player.py): calculated secondary statistics.
`max_hp`/`max_mp`/`luck` only ever hold ints in the source; the other
fields become floats after `calculate_secondary_stats`. -/
structure SecondaryStats where
  max_hp : ℤ := 0
  max_mp : ℤ := 0
  attack : ℚ := 0
  defense : ℚ := 0
  m_attack : ℚ := 0
  m_defense : ℚ := 0
  restorative_magic : ℚ := 0
  crit_rate : ℚ := 0
  dodge : ℚ := 0
  luck : ℤ := 0
  discovery : ℚ := 0
deriving DecidableEq, Repr

/-- `StatusEffectData` (player.py). -/
structure StatusEffectData where
  name : String
  type : String
  duration : ℤ
  potency : Option ℚ := none
  value : Option ℚ := none
  target_stat : Option String := none
deriving DecidableEq, Repr

/-- `ItemStats` (inventory_system.py): the stat block equipment items carry.
Only these eight attributes exist, so the `hasattr(item_stats, 'hp')`,
`'mp'`, `'crit_rate'`, `'dodge'` probes in `_apply_equipment_bonuses`
are always false for real items. -/
structure ItemStats where
  attack : ℤ := 0
  defense : ℤ := 0
  m_attack : ℤ := 0
  m_defense : ℤ := 0
  hp_bonus : ℤ := 0
  mp_bonus : ℤ := 0
  agility_bonus : ℤ := 0
  luck_bonus : ℤ := 0
deriving DecidableEq, Repr

/-- An equipped item as seen by `_apply_equipment_bonuses`: an object whose
`stats` attribute may be `None`. -/
structure Item where
  stats : Option ItemStats
deriving DecidableEq, Repr

/-- The `Player` class (player.py), restricted to the fields the combat /
progression core reads or writes.  `is_defending` is created lazily by the
combat system in Python; here it is a plain field (initially false).
The equipment dict is the list of the nine slots in declaration order. -/
structure Player where
  main_stats : MainStats := {}
  secondary_stats : SecondaryStats := {}
  equipment : List (Option Item) := List.replicate 9 none
  free_points : ℤ := 3
  level : ℕ := 1
  experience : ℕ := 0
  experience_to_next : ℕ := 100
  current_hp : ℚ := 0
  current_mp : ℚ := 0
  is_defending : Bool := false
  status_effects : List StatusEffectData := []
deriving DecidableEq, Repr

/-! ## player.py: secondary-stat derivation -/

/-- Body of `calculate_secondary_stats` before `_apply_equipment_bonuses`:
every field of the secondary block is reset / assigned from the main stats,
so the result does not depend on the previous secondary block. -/
def baseSecondaryStats (ms : MainStats) : SecondaryStats :=
  { max_hp := 31 + ms.vitality * 9
    max_mp := 20 + ms.intelligence * 5
    attack := 5 + (ms.strength : ℚ) * (13/10) + (ms.agility : ℚ) * (1/10)
    defense := 2 + (ms.vitality : ℚ) * (12/10)
    m_attack := 5 + (ms.intelligence : ℚ) * 1
    m_defense := 2 + (ms.wisdom : ℚ) * 1
    restorative_magic := 0 + (ms.wisdom : ℚ) * 1
    crit_rate := 0 + (ms.dexterity : ℚ) * (1/2)
    dodge := 0 + (ms.agility : ℚ) * (1/2) + (ms.dexterity : ℚ) * (1/10)
    luck := ms.luck
    discovery := (ms.luck : ℚ) * 2 }

/-- One slot of `_apply_equipment_bonuses`: add the item's stats onto the
secondary block.  Only the attack / defense / m_attack / m_defense
additions fire, because `ItemStats` has no `hp`, `mp`, `crit_rate` or
`dodge` attribute (the corresponding `hasattr` checks fail). -/
def applyItemBonus (sec : SecondaryStats) (slot : Option Item) : SecondaryStats :=
  match slot with
  | none => sec
  | some item =>
    match item.stats with
    | none => sec
    | some st =>
      { sec with
        attack := sec.attack + st.attack
        defense := sec.defense + st.defense
        m_attack := sec.m_attack + st.m_attack
        m_defense := sec.m_defense + st.m_defense }

/-- `_apply_equipment_bonuses` (player.py): fold over the slots in dict
(insertion) order. -/
def applyEquipmentBonuses (sec : SecondaryStats) (equipment : List (Option Item)) :
    SecondaryStats :=
  equipment.foldl applyItemBonus sec

/-- `Player.calculate_secondary_stats` (player.py). -/
def Player.calculate_secondary_stats (p : Player) : Player :=
  { p with secondary_stats := applyEquipmentBonuses (baseSecondaryStats p.main_stats) p.equipment }

/-! ## player.py: combat operations -/

/-- `Player.take_damage`: clamps the raw amount at 0, subtracts the flat
defense stat (no `is_defending` branch exists in the player version),
floors the result at 1 and clamps HP at 0.  Returns (actual, new state). -/
def Player.take_damage (p : Player) (damage : ℚ) : ℚ × Player :=
  let damage := max 0 damage
  let actual := max 1 (damage - p.secondary_stats.defense)
  (actual, { p with current_hp := max 0 (p.current_hp - actual) })

/-- `Player.take_magic_damage`. -/
def Player.take_magic_damage (p : Player) (damage : ℚ) : ℚ × Player :=
  let damage := max 0 damage
  let actual := max 1 (damage - p.secondary_stats.m_defense)
  (actual, { p with current_hp := max 0 (p.current_hp - actual) })

/-- `Player.heal`. -/
def Player.heal (p : Player) (amount : ℚ) : ℚ × Player :=
  let amount := max 0 amount
  let newHp := min (p.secondary_stats.max_hp : ℚ) (p.current_hp + amount)
  (newHp - p.current_hp, { p with current_hp := newHp })

/-- `Player.use_mp`. -/
def Player.use_mp (p : Player) (amount : ℚ) : Bool × Player :=
  if amount ≤ p.current_mp then (true, { p with current_mp := p.current_mp - amount })
  else (false, p)

/-- `Player.is_alive`. -/
def Player.is_alive (p : Player) : Bool := 0 < p.current_hp

/-- `Player.can_dodge` given the next `random.random()` draw. -/
def Player.can_dodge (p : Player) (g : RNG) : Bool × RNG :=
  let (r, g') := g.nextFloat
  (r * 100 < min 95 p.secondary_stats.dodge, g')

/-- `Player.can_crit` given the next `random.random()` draw. -/
def Player.can_crit (p : Player) (g : RNG) : Bool × RNG :=
  let (r, g') := g.nextFloat
  (r * 100 < min 95 p.secondary_stats.crit_rate, g')

/-- `Player.get_attack_damage`: ±10% variance roll then optional ×1.5 crit,
floored at 1. -/
def Player.get_attack_damage (p : Player) (g : RNG) : ℚ × RNG :=
  let base := p.secondary_stats.attack
  let variance : ℚ := (pytrunc (base * (1/10)) : ℤ)
  let (roll, g1) := pyRandint (max 1 (base - variance)) (base + variance) g
  let (crit, g2) := p.can_crit g1
  let dmg := if crit then ((pytrunc (roll * (3/2)) : ℤ) : ℚ) else roll
  (max 1 dmg, g2)

/-- `Player.get_magic_damage`. -/
def Player.get_magic_damage (p : Player) (g : RNG) : ℚ × RNG :=
  let base := p.secondary_stats.m_attack
  let variance : ℚ := (pytrunc (base * (1/10)) : ℤ)
  let (roll, g1) := pyRandint (max 1 (base - variance)) (base + variance) g
  let (crit, g2) := p.can_crit g1
  let dmg := if crit then ((pytrunc (roll * (3/2)) : ℤ) : ℚ) else roll
  (max 1 dmg, g2)

/-! ## player.py: status effects -/

/-- The per-type status handlers (`_apply_poison_effect` etc.).  `stun` and
`stat_boost` do not mutate state; unknown types only log a warning. -/
def applyPlayerEffect (p : Player) (eff : StatusEffectData) : Player :=
  if eff.type = "poison" then
    { p with current_hp := max 0 (p.current_hp - ((pytrunc (eff.potency.getD 5) : ℤ) : ℚ)) }
  else if eff.type = "regen_hp" then
    (p.heal ((pytrunc (eff.potency.getD 5) : ℤ) : ℚ)).2
  else if eff.type = "burn" then
    { p with current_hp := max 0 (p.current_hp - ((pytrunc (eff.potency.getD 3) : ℤ) : ℚ)) }
  else p

/-- `Player.process_status_effects`: for each effect in order, run its
handler, decrement its duration, and drop it once the duration is ≤ 0. -/
def Player.process_status_effects (p : Player) : Player :=
  let step := fun (acc : Player × List StatusEffectData) (eff : StatusEffectData) =>
    let p' := applyPlayerEffect acc.1 eff
    let eff' := { eff with duration := eff.duration - 1 }
    (p', if eff'.duration ≤ 0 then acc.2 else acc.2 ++ [eff'])
  let r := p.status_effects.foldl step (p, [])
  { r.1 with status_effects := r.2 }

/-! ## player.py: progression -/

/-- `experience_to_next * 1.2` truncated to int.  For every threshold
reachable from the initial 100 (and in fact every `n < 2 ^ 49`) CPython's
`int(n * 1.2)` equals `6 * n / 5` in floor division, so the embedding uses
the exact rational form. -/
def nextThreshold (n : ℕ) : ℕ := 6 * n / 5

/-- `Player.level_up` (player.py): consume one threshold of experience,
raise the level and threshold, auto-assign the seven listed main stats,
grant a free point, recompute secondary stats and carry the max-HP/MP
delta onto the current pools.  (`experience -= experience_to_next` is only
ever executed when `experience ≥ experience_to_next`, so the `ℕ`
subtraction is exact.) -/
def Player.level_up (p : Player) : Player :=
  let ms := p.main_stats
  let p1 : Player :=
    { p with
      experience := p.experience - p.experience_to_next
      level := p.level + 1
      experience_to_next := nextThreshold p.experience_to_next
      main_stats :=
        { ms with
          strength := ms.strength + 1
          vitality := ms.vitality + 1
          wisdom := ms.wisdom + 1
          intelligence := ms.intelligence + 1
          agility := ms.agility + 1
          dexterity := ms.dexterity + 1
          speed := ms.speed + 1 }
      free_points := p.free_points + 1 }
  let p2 := p1.calculate_secondary_stats
  let hp_gain : ℚ := ((p2.secondary_stats.max_hp - p.secondary_stats.max_hp : ℤ) : ℚ)
  let mp_gain : ℚ := ((p2.secondary_stats.max_mp - p.secondary_stats.max_mp : ℤ) : ℚ)
  { p2 with
    current_hp := min (p2.secondary_stats.max_hp : ℚ) (p2.current_hp + hp_gain)
    current_mp := min (p2.secondary_stats.max_mp : ℚ) (p2.current_mp + mp_gain) }

/-- The `while experience >= experience_to_next: level_up()` loop of
`Player.gain_experience`, written with explicit fuel so that it is
executable.  Each real iteration strictly decreases `experience` whenever
the threshold is positive, so any fuel ≥ the starting experience makes the
fuel guard unreachable (proved below); the source itself would diverge
only in the unreachable threshold-0 state. -/
def levelLoopFuel : ℕ → Player → Player
  | 0, p => p
  | fuel + 1, p =>
    if p.experience_to_next ≤ p.experience then levelLoopFuel fuel p.level_up
    else p

/-- `Player.gain_experience` (player.py). -/
def Player.gain_experience (p : Player) (exp : ℕ) : Player :=
  levelLoopFuel (p.experience + exp) { p with experience := p.experience + exp }

/-! ## enemy.py: data model and combat operations -/

/-- `EnemyStats` (enemy.py). -/
structure EnemyStats where
  level : ℤ := 1
  max_hp : ℤ := 100
  max_mp : ℤ := 50
  attack : ℤ := 10
  defense : ℤ := 5
  m_attack : ℤ := 10
  m_defense : ℤ := 5
  agility : ℤ := 10
  luck : ℤ := 10
deriving DecidableEq, Repr

/-- A status-effect dict as held by enemies (enemy.py stores plain dicts
with `name`, `type`, `duration` and optional `damage` / `heal` keys). -/
structure EnemyEffect where
  name : String
  type : String
  duration : ℤ
  damage : Option ℚ := none
  heal : Option ℚ := none
deriving DecidableEq, Repr

/-- The `Enemy` class (enemy.py), restricted to the fields combat uses.
`max_hp`/`max_mp` are the copies taken from `stats` at construction;
current pools are `ℚ` because player-side float damage can flow into them. -/
structure Enemy where
  name : String := ""
  type : String := "Physical"
  stats : EnemyStats := {}
  max_hp : ℤ := 100
  current_hp : ℚ := 100
  max_mp : ℤ := 50
  current_mp : ℚ := 50
  abilities : List String := []
  is_defending : Bool := false
  status_effects : List EnemyEffect := []
deriving DecidableEq, Repr

/-- `Enemy.take_damage`: with a 50% defense bonus (`int(defense * 1.5)`,
exact in binary64) when defending; damage floored at 1, HP clamped at 0. -/
def Enemy.take_damage (e : Enemy) (damage : ℚ) : ℚ × Enemy :=
  let defense : ℚ :=
    if e.is_defending then ((pytrunc ((e.stats.defense : ℚ) * (3/2)) : ℤ) : ℚ)
    else (e.stats.defense : ℚ)
  let actual := max 1 (damage - defense)
  (actual, { e with current_hp := max 0 (e.current_hp - actual) })

/-- `Enemy.take_magic_damage`. -/
def Enemy.take_magic_damage (e : Enemy) (damage : ℚ) : ℚ × Enemy :=
  let defense : ℚ :=
    if e.is_defending then ((pytrunc ((e.stats.m_defense : ℚ) * (3/2)) : ℤ) : ℚ)
    else (e.stats.m_defense : ℚ)
  let actual := max 1 (damage - defense)
  (actual, { e with current_hp := max 0 (e.current_hp - actual) })

/-- `Enemy.heal` (no clamp of the amount at 0 in the enemy version). -/
def Enemy.heal (e : Enemy) (amount : ℚ) : ℚ × Enemy :=
  let newHp := min (e.max_hp : ℚ) (e.current_hp + amount)
  (newHp - e.current_hp, { e with current_hp := newHp })

/-- `Enemy.use_mp`. -/
def Enemy.use_mp (e : Enemy) (amount : ℚ) : Bool × Enemy :=
  if amount ≤ e.current_mp then (true, { e with current_mp := e.current_mp - amount })
  else (false, e)

/-- `Enemy.is_alive`. -/
def Enemy.is_alive (e : Enemy) : Bool := 0 < e.current_hp

/-- `Enemy.can_dodge`: chance `min(95, agility * 0.5)`. -/
def Enemy.can_dodge (e : Enemy) (g : RNG) : Bool × RNG :=
  let (r, g') := g.nextFloat
  (r * 100 < min 95 ((e.stats.agility : ℚ) * (1/2)), g')

/-- `Enemy.can_crit`: chance `min(95, luck * 0.3)`. -/
def Enemy.can_crit (e : Enemy) (g : RNG) : Bool × RNG :=
  let (r, g') := g.nextFloat
  (r * 100 < min 95 ((e.stats.luck : ℚ) * (3/10)), g')

/-- `Enemy.get_attack_damage`: ±15% variance then optional ×1.5 crit,
floored at 1. -/
def Enemy.get_attack_damage (e : Enemy) (g : RNG) : ℚ × RNG :=
  let base : ℚ := (e.stats.attack : ℚ)
  let variance : ℚ := (pytrunc (base * (3/20)) : ℤ)
  let (roll, g1) := pyRandint (max 1 (base - variance)) (base + variance) g
  let (crit, g2) := e.can_crit g1
  let dmg := if crit then ((pytrunc (roll * (3/2)) : ℤ) : ℚ) else roll
  (max 1 dmg, g2)

/-- `Enemy.get_magic_damage`. -/
def Enemy.get_magic_damage (e : Enemy) (g : RNG) : ℚ × RNG :=
  let base : ℚ := (e.stats.m_attack : ℚ)
  let variance : ℚ := (pytrunc (base * (3/20)) : ℤ)
  let (roll, g1) := pyRandint (max 1 (base - variance)) (base + variance) g
  let (crit, g2) := e.can_crit g1
  let dmg := if crit then ((pytrunc (roll * (3/2)) : ℤ) : ℚ) else roll
  (max 1 dmg, g2)

/-- The per-effect body of `Enemy.process_status_effects`: the duration is
decremented first, then the effect is applied, then it is removed when the
decremented duration is ≤ 0. -/
def applyEnemyEffect (e : Enemy) (eff : EnemyEffect) : Enemy :=
  if eff.type = "poison" then
    { e with current_hp := max 0 (e.current_hp - eff.damage.getD 5) }
  else if eff.type = "regen" then (e.heal (eff.heal.getD 5)).2
  else if eff.type = "burn" then
    { e with current_hp := max 0 (e.current_hp - eff.damage.getD 3) }
  else e

/-- `Enemy.process_status_effects`. -/
def Enemy.process_status_effects (e : Enemy) : Enemy :=
  let step := fun (acc : Enemy × List EnemyEffect) (eff : EnemyEffect) =>
    let eff' := { eff with duration := eff.duration - 1 }
    let e' := applyEnemyEffect acc.1 eff'
    (e', if eff'.duration ≤ 0 then acc.2 else acc.2 ++ [eff'])
  let r := e.status_effects.foldl step (e, [])
  { r.1 with status_effects := r.2 }

/-- The cumulative-weight walk at the end of `Enemy.choose_action`. -/
def pickWeighted (roll cur : ℚ) : List (String × ℤ) → String
  | [] => "attack"
  | (t, w) :: rest =>
    if roll ≤ cur + (w : ℚ) then t else pickWeighted roll (cur + (w : ℚ)) rest

/-- `Enemy.choose_action` (enemy.py): build the weighted list of currently
eligible actions, then pick with a single `randint(1, total_weight)` draw.
(The `player` parameter of the source is unused by the body.)  The HP
ratios `0.3` / `0.2` are the rationals `3/10` / `1/5`. -/
def Enemy.choose_action (e : Enemy) (g : RNG) : String × RNG :=
  let actions : List (String × ℤ) :=
    [("attack", 60)]
    ++ (if 10 ≤ e.current_mp then [("magic_attack", 30)] else [])
    ++ (if e.current_hp < (e.max_hp : ℚ) * (3/10) then [("defend", 40)] else [])
    ++ (if e.abilities ≠ [] ∧ 15 ≤ e.current_mp then [("ability", 25)] else [])
    ++ (if e.current_hp < (e.max_hp : ℚ) * (1/5) ∧ 20 ≤ e.current_mp then [("heal", 80)] else [])
  let total := (actions.map Prod.snd).sum
  if total = 0 then ("attack", g)
  else
    let (roll, g') := pyRandint 1 (total : ℚ) g
    (pickWeighted roll 0 actions, g')

/-- Result dict of `Enemy.use_ability`: on failure only `success` is
meaningful (the source dict then has no `type` key; callers read the other
fields only when `success` is true). -/
structure AbilityOutcome where
  success : Bool
  rtype : String := ""
  damage : ℚ := 0
  status_effect : Option EnemyEffect := none
deriving DecidableEq, Repr

/-- `Enemy.use_ability` (enemy.py): the three implemented abilities.
Unknown names, names not known to this enemy, and failed MP checks all
yield a failure outcome without mutation. -/
def Enemy.use_ability (e : Enemy) (ability : String) (g : RNG) :
    AbilityOutcome × Enemy × RNG :=
  if ability ∉ e.abilities then ({ success := false }, e, g)
  else if ability = "Heal" then
    let (ok, e1) := e.use_mp 20
    if ok then
      let (amt, g1) := pyRandint 15 25 g
      let (_, e2) := e1.heal amt
      ({ success := true, rtype := "heal" }, e2, g1)
    else ({ success := false }, e, g)
  else if ability = "Poison Strike" then
    let (ok, e1) := e.use_mp 15
    if ok then
      let (dmg, g1) := e1.get_attack_damage g
      ({ success := true, rtype := "attack", damage := dmg
         status_effect := some { name := "Poison", type := "poison", damage := some 5, duration := 3 } },
       e1, g1)
    else ({ success := false }, e, g)
  else if ability = "Fire Blast" then
    let (ok, e1) := e.use_mp 25
    if ok then
      let (dmg, g1) := e1.get_magic_damage g
      ({ success := true, rtype := "magic_attack"
         damage := ((pytrunc (dmg * (13/10)) : ℤ) : ℚ) }, e1, g1)
    else ({ success := false }, e, g)
  else ({ success := false }, e, g)

/-! ## combat_system.py -/

/-- `CombatResult` (combat_system.py). -/
inductive CombatResult
  | ongoing
  | victory
  | defeat
  | fled
deriving DecidableEq, Repr

/-- A reference to a participant, standing for the Python object references
held in `turn_order`: the player, or the i-th entry of the `enemies` list. -/
inductive ActorRef
  | player
  | enemy (i : ℕ)
deriving DecidableEq, Repr

/-- The fields of `CombatSystem` that carry combat state.  The combat log,
accumulated loot / experience counters and the bestiary handle do not feed
back into combat behaviour and are not modelled. -/
structure CombatState where
  player : Player
  enemies : List Enemy
  combat_active : Bool := false
  turn_order : List ActorRef := []
  current_turn_index : ℕ := 0
deriving DecidableEq, Repr

/-- Write back a mutated enemy object (Python mutates the list entry in
place through the shared reference). -/
def setEnemy (s : CombatState) (i : ℕ) (e : Enemy) : CombatState :=
  { s with enemies := s.enemies.set i e }

/-- The initiative draws for the enemy participants, in list order, each
`base_agility + randint(1, 10)`. -/
def enemyInitiatives : ℕ → List Enemy → RNG → List (ActorRef × ℚ) × RNG
  | _, [], g => ([], g)
  | i, e :: rest, g =>
    let (r, g1) := pyRandint 1 10 g
    let (tail, g2) := enemyInitiatives (i + 1) rest g1
    ((ActorRef.enemy i, (e.stats.agility : ℚ) + r) :: tail, g2)

/-- Insert into a descending-sorted list, before the first entry with a key
≤ the new key.  This realises the stability of CPython's
`sort(key=..., reverse=True)`: an earlier element goes before any
equal-keyed later element. -/
def sortedInsertDesc (x : ActorRef × ℚ) : List (ActorRef × ℚ) → List (ActorRef × ℚ)
  | [] => [x]
  | y :: ys => if y.2 ≤ x.2 then x :: y :: ys else y :: sortedInsertDesc x ys

/-- Stable descending sort by initiative (CPython `list.sort` with
`key=lambda x: x[1], reverse=True`). -/
def stableSortDesc : List (ActorRef × ℚ) → List (ActorRef × ℚ)
  | [] => []
  | x :: xs => sortedInsertDesc x (stableSortDesc xs)

/-- The initiative list of `_initialize_turn_order`: the player (agility +
speed) followed by the enemies (agility), each plus a `randint(1, 10)`
draw, in participant order. -/
def initiativePairs (s : CombatState) (g : RNG) : List (ActorRef × ℚ) × RNG :=
  let (r0, g0) := pyRandint 1 10 g
  let pInit : ℚ := ((s.player.main_stats.agility + s.player.main_stats.speed : ℤ) : ℚ) + r0
  let (es, g1) := enemyInitiatives 0 s.enemies g0
  ((ActorRef.player, pInit) :: es, g1)

/-- `CombatSystem._initialize_turn_order`. -/
def initialize_turn_order (s : CombatState) (g : RNG) : CombatState × RNG :=
  let (pairs, g1) := initiativePairs s g
  ({ s with turn_order := (stableSortDesc pairs).map Prod.fst, current_turn_index := 0 }, g1)

/-- `CombatSystem.start_combat`: install the participants, mark combat
active, build the turn order, reset every defending flag.  (The
bestiary-discovery notification is a one-way side effect, not modelled.) -/
def start_combat (p : Player) (enemies : List Enemy) (g : RNG) : CombatState × RNG :=
  let s : CombatState := { player := p, enemies := enemies, combat_active := true }
  let (s1, g1) := initialize_turn_order s g
  ({ s1 with
      player := { s1.player with is_defending := false }
      enemies := s1.enemies.map (fun e => { e with is_defending := false }) }, g1)

/-- `CombatSystem._check_combat_end`: dead player first (DEFEAT), then no
living enemy (VICTORY), else ONGOING. -/
def check_combat_end (s : CombatState) : CombatResult :=
  if s.player.is_alive = false then CombatResult.defeat
  else if s.enemies.filter Enemy.is_alive = [] then CombatResult.victory
  else CombatResult.ongoing

/-- The break condition of the skip loop in `_advance_turn`:
`current_actor == self.player or current_actor.is_alive()`. -/
def actorOkay (s : CombatState) (a : ActorRef) : Bool :=
  match a with
  | ActorRef.player => true
  | ActorRef.enemy i => ((s.enemies[i]?).map Enemy.is_alive).getD false

/-- The `while attempts < len(turn_order)` skip loop of `_advance_turn`. -/
def skipDead (s : CombatState) : ℕ → ℕ → ℕ
  | 0, idx => idx
  | fuel + 1, idx =>
    match s.turn_order[idx]? with
    | none => idx
    | some a =>
      if actorOkay s a then idx
      else skipDead s fuel ((idx + 1) % s.turn_order.length)

/-- `CombatSystem._advance_turn`. -/
def advance_turn (s : CombatState) : CombatState :=
  let n := s.turn_order.length
  { s with current_turn_index := skipDead s n ((s.current_turn_index + 1) % n) }

/-- Indices of currently alive enemies (the `[e for e in self.enemies if
e.is_alive()]` lists, kept as indices so mutation writes back). -/
def aliveIdx (s : CombatState) : List ℕ :=
  (List.range s.enemies.length).filter
    (fun i => ((s.enemies[i]?).map Enemy.is_alive).getD false)

/-- `ui.show_target_selection`: the next queued target choice (an index
into the alive-enemy list; the UI only offers valid indices). -/
def popTarget (ts : List ℕ) : ℕ × List ℕ :=
  match ts with
  | [] => (0, [])
  | t :: rest => (t, rest)

/-- `CombatSystem._player_attack`. -/
def player_attack (s : CombatState) (ts : List ℕ) (g : RNG) :
    CombatState × List ℕ × RNG :=
  let alive := aliveIdx s
  if alive = [] then (s, ts, g)
  else
    let (i, ts1) :=
      if alive.length = 1 then (alive.headD 0, ts)
      else
        let (t, ts') := popTarget ts
        (alive.getD t 0, ts')
    match s.enemies[i]? with
    | none => (s, ts1, g)
    | some target =>
      let (dodge, g1) := target.can_dodge g
      if dodge then (s, ts1, g1)
      else
        let (dmg, g2) := s.player.get_attack_damage g1
        let (_crit, g3) := s.player.can_crit g2
        let (_actual, t') := target.take_damage dmg
        (setEnemy s i t', ts1, g3)

/-- `CombatSystem._player_magic_attack`: the 10 MP cost is paid first; a
failed MP check aborts with no mutation, and a later dodge leaves the MP
spent. -/
def player_magic_attack (s : CombatState) (ts : List ℕ) (g : RNG) :
    CombatState × List ℕ × RNG :=
  let (ok, p1) := s.player.use_mp 10
  if ok = false then (s, ts, g)
  else
    let s1 := { s with player := p1 }
    let alive := aliveIdx s1
    if alive = [] then (s1, ts, g)
    else
      let (i, ts1) :=
        if alive.length = 1 then (alive.headD 0, ts)
        else
          let (t, ts') := popTarget ts
          (alive.getD t 0, ts')
      match s1.enemies[i]? with
      | none => (s1, ts1, g)
      | some target =>
        let (dodge, g1) := target.can_dodge g
        if dodge then (s1, ts1, g1)
        else
          let (dmg, g2) := s1.player.get_magic_damage g1
          let (_crit, g3) := s1.player.can_crit g2
          let (_actual, t') := target.take_magic_damage dmg
          (setEnemy s1 i t', ts1, g3)

/-- `CombatSystem._player_defend`. -/
def player_defend (s : CombatState) : CombatState :=
  { s with player := { s.player with is_defending := true } }

/-- `CombatSystem._player_run_away`: agility-based chance clamped into
[10, 90]; success deactivates combat; the turn is consumed either way. -/
def player_run_away (s : CombatState) (g : RNG) : CombatState × RNG :=
  let pa := s.player.main_stats.agility + s.player.main_stats.speed
  let ea := (((s.enemies.filter Enemy.is_alive).map (fun e => e.stats.agility)).max?).getD 0
  let run_chance : ℚ := max 10 (min 90 (50 + ((pa - ea : ℤ) : ℚ) * 5))
  let (r, g1) := g.nextFloat
  if r * 100 < run_chance then ({ s with combat_active := false }, g1)
  else (s, g1)

/-- The `while True` menu loop of `_process_player_turn`, recursing on the
queue of UI choices: "4" (item use, unimplemented) and unrecognised
choices do not consume the turn and loop for another choice.  An exhausted
queue stands for the source blocking on input forever. -/
def playerMenuLoop : List String → CombatState → List ℕ → RNG →
    CombatState × List String × List ℕ × RNG
  | [], s, ts, g => (s, [], ts, g)
  | c :: cs, s, ts, g =>
    if c = "1" then
      let (s', ts', g') := player_attack s ts g
      (s', cs, ts', g')
    else if c = "2" then
      let (s', ts', g') := player_magic_attack s ts g
      (s', cs, ts', g')
    else if c = "3" then (player_defend s, cs, ts, g)
    else if c = "4" then playerMenuLoop cs s ts g
    else if c = "5" then
      let (s', g') := player_run_away s g
      (s', cs, ts, g')
    else playerMenuLoop cs s ts g

/-- `CombatSystem._process_player_turn`: reset the player's defending flag,
then run the menu loop. -/
def process_player_turn (s : CombatState) (cs : List String) (ts : List ℕ) (g : RNG) :
    CombatState × List String × List ℕ × RNG :=
  playerMenuLoop cs { s with player := { s.player with is_defending := false } } ts g

/-- `CombatSystem._enemy_attack`: player dodge check, damage roll, display
crit roll, 50% reduction (`int(damage * 0.5)`) when the player defends,
then `Player.take_damage`. -/
def enemy_attack (e : Enemy) (s : CombatState) (g : RNG) : CombatState × RNG :=
  let (dodge, g1) := s.player.can_dodge g
  if dodge then (s, g1)
  else
    let (dmg, g2) := e.get_attack_damage g1
    let (_crit, g3) := e.can_crit g2
    let dmg := if s.player.is_defending then ((pytrunc (dmg * (1/2)) : ℤ) : ℚ) else dmg
    let (_actual, p') := s.player.take_damage dmg
    ({ s with player := p' }, g3)

/-- `CombatSystem._enemy_magic_attack`: 10 MP or fall back to a plain
attack. -/
def enemy_magic_attack (i : ℕ) (e : Enemy) (s : CombatState) (g : RNG) :
    CombatState × RNG :=
  let (ok, e1) := e.use_mp 10
  if ok = false then enemy_attack e1 s g
  else
    let s1 := setEnemy s i e1
    let (dodge, g1) := s1.player.can_dodge g
    if dodge then (s1, g1)
    else
      let (dmg, g2) := e1.get_magic_damage g1
      let (_crit, g3) := e1.can_crit g2
      let dmg := if s1.player.is_defending then ((pytrunc (dmg * (1/2)) : ℤ) : ℚ) else dmg
      let (_actual, p') := s1.player.take_magic_damage dmg
      ({ s1 with player := p' }, g3)

/-- `CombatSystem._enemy_defend`. -/
def enemy_defend (i : ℕ) (e : Enemy) (s : CombatState) : CombatState :=
  setEnemy s i { e with is_defending := true }

/-- `CombatSystem._enemy_heal`: 20 MP for a randint(15, 25) heal, else fall
back to defending. -/
def enemy_heal (i : ℕ) (e : Enemy) (s : CombatState) (g : RNG) : CombatState × RNG :=
  let (ok, e1) := e.use_mp 20
  if ok then
    let (amt, g1) := pyRandint 15 25 g
    let (_h, e2) := e1.heal amt
    (setEnemy s i e2, g1)
  else (enemy_defend i e1 s, g)

/-- `CombatSystem._enemy_use_ability`.  On a successful "attack" outcome the
accompanying status-effect dict is passed to `Player.add_status_effect`,
whose `isinstance(..., StatusEffectData)` guard rejects the enemy-style
dict, so no effect is attached; the ability path applies no
defending-halving. -/
def enemy_use_ability (i : ℕ) (e : Enemy) (s : CombatState) (g : RNG) :
    CombatState × RNG :=
  if e.abilities = [] then enemy_attack e s g
  else
    let (abIdx, g1) := pyChoiceIdx e.abilities.length g
    let ability := e.abilities.getD abIdx ""
    let (res, e1, g2) := e.use_ability ability g1
    let s1 := setEnemy s i e1
    if res.success then
      if res.rtype = "attack" then
        let (dodge, g3) := s1.player.can_dodge g2
        if dodge = false then
          let (_a, p') := s1.player.take_damage res.damage
          ({ s1 with player := p' }, g3)
        else (s1, g3)
      else if res.rtype = "magic_attack" then
        let (dodge, g3) := s1.player.can_dodge g2
        if dodge = false then
          let (_a, p') := s1.player.take_magic_damage res.damage
          ({ s1 with player := p' }, g3)
        else (s1, g3)
      else (s1, g2)
    else enemy_attack e1 s1 g2

/-- `CombatSystem._process_enemy_turn`: skip dead actors, reset the acting
enemy's defending flag, let the AI pick an action, dispatch (unknown action
tags default to attack). -/
def process_enemy_turn (i : ℕ) (s : CombatState) (g : RNG) : CombatState × RNG :=
  match s.enemies[i]? with
  | none => (s, g)
  | some e0 =>
    if e0.is_alive = false then (s, g)
    else
      let e := { e0 with is_defending := false }
      let s1 := setEnemy s i e
      let (act, g1) := e.choose_action g
      if act = "attack" then enemy_attack e s1 g1
      else if act = "magic_attack" then enemy_magic_attack i e s1 g1
      else if act = "defend" then (enemy_defend i e s1, g1)
      else if act = "heal" then enemy_heal i e s1 g1
      else if act = "ability" then enemy_use_ability i e s1 g1
      else enemy_attack e s1 g1

/-- `CombatSystem._process_status_effects`: tick the player's effects, then
those of each living enemy, in list order. -/
def process_status_effects (s : CombatState) : CombatState :=
  { s with
    player := s.player.process_status_effects
    enemies := s.enemies.map (fun e => if e.is_alive then e.process_status_effects else e) }

/-- `Enemy.get_experience_value` (enemy.py): `int(level * 10 * multiplier)`
with the per-type multiplier table. -/
def Enemy.get_experience_value (e : Enemy) : ℤ :=
  let mult : ℚ :=
    if e.type = "Physical" then 1
    else if e.type = "Fire" then 11/10
    else if e.type = "Water" then 11/10
    else if e.type = "Earth" then 11/10
    else if e.type = "Wind" then 11/10
    else if e.type = "Thunder" then 11/10
    else if e.type = "Ice" then 11/10
    else if e.type = "Nature" then 1
    else if e.type = "Light" then 6/5
    else if e.type = "Darkness" then 6/5
    else if e.type = "Null" then 3/2
    else 1
  pytrunc ((e.stats.level * 10 : ℤ) * mult)

/-- `CombatSystem._end_combat`: deactivate combat; on victory award the
summed experience.  (The loot rolls also performed there draw on an item
rarity map loaded from data files on disk and do not feed back into
combat state; they are not modelled.) -/
def end_combat (s : CombatState) (result : CombatResult) : CombatState :=
  let s := { s with combat_active := false }
  if result = CombatResult.victory then
    { s with player := s.player.gain_experience ((s.enemies.map Enemy.get_experience_value).sum).toNat }
  else s

/-- The `while self.is_combat_active()` loop of
`execute_combat_encounter`, with explicit fuel: `none` means the fuel ran
out with the encounter still in progress.  Each iteration: end check, act
the current turn holder (the player branch returns FLED immediately when
the player escaped), process status effects for all participants, advance
the turn, end check again. -/
def runCombatLoop : ℕ → CombatState → List String → List ℕ → RNG →
    Option CombatResult × CombatState × List String × List ℕ × RNG
  | 0, s, cs, ts, g => (none, s, cs, ts, g)
  | fuel + 1, s, cs, ts, g =>
    if s.combat_active = false then
      let r := check_combat_end s
      (some r, end_combat s r, cs, ts, g)
    else
      let r := check_combat_end s
      if r ≠ CombatResult.ongoing then (some r, end_combat s r, cs, ts, g)
      else
        match s.turn_order[s.current_turn_index]? with
        | none => (some CombatResult.ongoing, end_combat s CombatResult.ongoing, cs, ts, g)
        | some ActorRef.player =>
          let (s1, cs1, ts1, g1) := process_player_turn s cs ts g
          if s1.combat_active = false then
            (some CombatResult.fled, end_combat s1 CombatResult.fled, cs1, ts1, g1)
          else
            let s2 := process_status_effects s1
            let s3 := if s2.combat_active then advance_turn s2 else s2
            let r2 := check_combat_end s3
            if r2 ≠ CombatResult.ongoing then (some r2, end_combat s3 r2, cs1, ts1, g1)
            else runCombatLoop fuel s3 cs1 ts1 g1
        | some (ActorRef.enemy i) =>
          let (s1, g1) := process_enemy_turn i s g
          let s2 := process_status_effects s1
          let s3 := if s2.combat_active then advance_turn s2 else s2
          let r2 := check_combat_end s3
          if r2 ≠ CombatResult.ongoing then (some r2, end_combat s3 r2, cs, ts, g1)
          else runCombatLoop fuel s3 cs ts g1

/-- `CombatSystem.execute_combat_encounter`: `start_combat` then the loop. -/
def execute_combat_encounter (fuel : ℕ) (p : Player) (enemies : List Enemy)
    (cs : List String) (ts : List ℕ) (g : RNG) :
    Option CombatResult × CombatState × List String × List ℕ × RNG :=
  let (s0, g0) := start_combat p enemies g
  runCombatLoop fuel s0 cs ts g0

/-! ## Concrete states used by witnesses and counterexamples -/

/-- A mid-combat player: defense 2, 20/50 HP, 20 MP, currently defending. -/
def examplePlayer : Player :=
  { secondary_stats := { max_hp := 50, max_mp := 20, attack := 5, defense := 2
                         m_attack := 5, m_defense := 2 }
    current_hp := 20
    current_mp := 20
    is_defending := true }

/-- A basic enemy with defense 2. -/
def exampleEnemy : Enemy :=
  { name := "Rat"
    stats := { level := 1, max_hp := 30, max_mp := 10, attack := 4, defense := 2
               m_attack := 2, m_defense := 1, agility := 4, luck := 1 }
    max_hp := 30, current_hp := 30, max_mp := 10, current_mp := 10 }

/-- Player for the status-effect round scenario: defense 2, no dodge/crit,
100/100 HP, a poison effect with the given duration. -/
def scenarioPlayer (d : ℤ) : Player :=
  { secondary_stats := { max_hp := 100, max_mp := 20, attack := 5, defense := 2
                         m_attack := 5, m_defense := 2, crit_rate := 0, dodge := 0 }
    current_hp := 100
    current_mp := 0
    status_effects := [{ name := "Poison", type := "poison", duration := d }] }

/-- Enemy for the status-effect round scenario: healthy (so the AI can only
pick its always-eligible attack), no MP, no abilities, luck 0 (never
crits). -/
def scenarioEnemy : Enemy :=
  { name := "Rat"
    stats := { level := 1, max_hp := 50, max_mp := 0, attack := 5, defense := 1
               m_attack := 0, m_defense := 0, agility := 1, luck := 0 }
    max_hp := 50, current_hp := 50, max_mp := 0, current_mp := 0 }

/-- One completed round of the scenario encounter: fuel 2 covers exactly
the player action (defend) and the enemy action (attack); the draw streams
are: initiative rolls 10 (player, initiative 14) and 1 (enemy, initiative
2), AI action roll 30 (attack), attack damage roll 5, and three
`random.random()` draws of 0 for the dodge and the two crit checks (the
player's dodge and the enemy's crit chance are 0, so any draw gives the
same outcome). -/
def scenarioRun (d : ℤ) :
    Option CombatResult × CombatState × List String × List ℕ × RNG :=
  execute_combat_encounter 2 (scenarioPlayer d) [scenarioEnemy] ["3"] []
    { floats := [0, 0, 0], ints := [10, 1, 30, 5] }

/-- A mid-combat state with the player and one living enemy, used to
exercise turn advancement. -/
def exampleCombatState : CombatState :=
  { player := examplePlayer
    enemies := [exampleEnemy]
    combat_active := true
    turn_order := [ActorRef.player, ActorRef.enemy 0]
    current_turn_index := 0 }

/-- An enemy with dodge chance capped at 95% (agility 190). -/
def dodgyEnemy : Enemy :=
  { name := "Bat"
    stats := { level := 1, max_hp := 30, max_mp := 0, attack := 2, defense := 0
               m_attack := 0, m_defense := 0, agility := 190, luck := 0 }
    max_hp := 30, current_hp := 30, max_mp := 0, current_mp := 0 }

/-- A combat state against the dodge-capped enemy. -/
def magicCombatState : CombatState :=
  { player := examplePlayer
    enemies := [dodgyEnemy]
    combat_active := true
    turn_order := [ActorRef.player, ActorRef.enemy 0]
    current_turn_index := 0 }

/-- Snapshot of the scenario encounter mid-round: the player's defending
flag, HP and poison duration, and the turn index vary; everything else is
fixed. -/
def roundState (b : Bool) (hp : ℚ) (d : ℤ) (idx : ℕ) : CombatState :=
  { player := { main_stats := {}
                secondary_stats := { max_hp := 100, max_mp := 20, attack := 5, defense := 2
                                     m_attack := 5, m_defense := 2, crit_rate := 0, dodge := 0 }
                current_hp := hp
                current_mp := 0
                is_defending := b
                status_effects := [{ name := "Poison", type := "poison", duration := d }] }
    enemies := [scenarioEnemy]
    combat_active := true
    turn_order := [ActorRef.player, ActorRef.enemy 0]
    current_turn_index := idx }

/-! ## Helper lemmas -/

theorem pytrunc_nonneg {q : ℚ} (h : 0 ≤ q) : 0 ≤ pytrunc q := by
  unfold pytrunc
  rw [if_pos h]
  exact Int.floor_nonneg.mpr h

/-! ## Claim theorems -/

/-- Claim C1, counterexample: the claim asserts that for every combatant
`take_damage` uses defense × 1.5 while defending, so a defending player
with defense 2 hit for 10 would take 7; but `Player.take_damage` has no
defending branch and returns 8 even though `is_defending` is true. -/
theorem c1_player_defending_counterexample :
    examplePlayer.is_defending = true ∧
    (examplePlayer.take_damage 10).1 = 8 ∧ (8 : ℚ) ≠ 7 := by
  refine ⟨rfl, ?_, by norm_num⟩
  norm_num [Player.take_damage, examplePlayer, max_def]

/-- Claim C1 (amended): only `Enemy.take_damage` computes effective defense
as `int(defense × 1.5)` when defending; `Player.take_damage` ignores
`is_defending` entirely (its result is invariant under that flag).  With
defense 2 and 10 raw damage: the player takes 8 whether defending or not,
an enemy takes 8 when not defending and 7 when defending. -/
theorem c1_take_damage_defending_amended (p : Player) (e : Enemy) (b : Bool) (d : ℚ)
    (hp2 : p.secondary_stats.defense = 2) (he2 : e.stats.defense = 2) :
    (({ p with is_defending := b }).take_damage 10).1 = 8
  ∧ (({ p with is_defending := b }).take_damage d).1 = (p.take_damage d).1
  ∧ (({ e with is_defending := false }).take_damage 10).1 = 8
  ∧ (({ e with is_defending := true }).take_damage 10).1 = 7 := by
  refine ⟨?_, ?_, ?_, ?_⟩
  · norm_num [Player.take_damage, hp2, max_def]
  · simp [Player.take_damage]
  · norm_num [Enemy.take_damage, he2, max_def]
  · norm_num [Enemy.take_damage, he2, pytrunc, max_def, Int.floor_intCast]

/-- Claim C1, witness for the amended theorem at the concrete states. -/
theorem c1_take_damage_defending_amended_witness :
    examplePlayer.secondary_stats.defense = 2
  ∧ (({ examplePlayer with is_defending := true }).take_damage 10).1 = 8
  ∧ (({ exampleEnemy with is_defending := true }).take_damage 10).1 = 7 :=
  ⟨rfl,
   (c1_take_damage_defending_amended examplePlayer exampleEnemy true 10 rfl rfl).1,
   (c1_take_damage_defending_amended examplePlayer exampleEnemy true 10 rfl rfl).2.2.2⟩

/-- Claim C3: for every combatant state and every raw amount (any sign,
arbitrarily high defense), `take_damage` and `take_magic_damage` return at
least 1 and leave `current_hp ≥ 0`. -/
theorem c3_min_damage_hp_floor (p : Player) (e : Enemy) (d : ℚ) :
    (1 ≤ (p.take_damage d).1 ∧ 0 ≤ (p.take_damage d).2.current_hp)
  ∧ (1 ≤ (p.take_magic_damage d).1 ∧ 0 ≤ (p.take_magic_damage d).2.current_hp)
  ∧ (1 ≤ (e.take_damage d).1 ∧ 0 ≤ (e.take_damage d).2.current_hp)
  ∧ (1 ≤ (e.take_magic_damage d).1 ∧ 0 ≤ (e.take_magic_damage d).2.current_hp) :=
  ⟨⟨le_max_left _ _, le_max_left _ _⟩, ⟨le_max_left _ _, le_max_left _ _⟩,
   ⟨le_max_left _ _, le_max_left _ _⟩, ⟨le_max_left _ _, le_max_left _ _⟩⟩

/-- Claim C5: the end-condition check returns DEFEAT whenever the player is
dead (taking priority: VICTORY forces a living player), VICTORY exactly
when the player lives and no enemy does, and ONGOING otherwise. -/
theorem c5_check_combat_end_priority (s : CombatState) :
    (s.player.is_alive = false → check_combat_end s = CombatResult.defeat)
  ∧ (check_combat_end s = CombatResult.victory ↔
      s.player.is_alive = true ∧ s.enemies.filter Enemy.is_alive = [])
  ∧ (s.player.is_alive = true → s.enemies.filter Enemy.is_alive ≠ [] →
      check_combat_end s = CombatResult.ongoing) := by
  unfold check_combat_end
  cases h : s.player.is_alive with
  | false => simp
  | true =>
    by_cases hf : s.enemies.filter Enemy.is_alive = [] <;> simp [hf]

/-- Claim C5, witness: a state where both the player and the only enemy are
dead is DEFEAT, not VICTORY. -/
theorem c5_check_combat_end_priority_witness :
    check_combat_end { player := { examplePlayer with current_hp := 0 }
                       enemies := [{ exampleEnemy with current_hp := 0 }] }
      = CombatResult.defeat :=
  (c5_check_combat_end_priority _).1 (by norm_num [Player.is_alive])

/-- Claim C7: `calculate_secondary_stats` is idempotent — with unchanged
main stats and equipment a second recomputation yields an identical state
(no accumulation of base values or equipment bonuses). -/
theorem c7_secondary_stats_idempotent (p : Player) :
    p.calculate_secondary_stats.calculate_secondary_stats
      = p.calculate_secondary_stats := rfl

/-- Claim C8: for both combatant kinds, `use_mp amount` (amount ≥ 0)
succeeds and deducts exactly `amount` iff `current_mp ≥ amount`, and
otherwise returns false leaving the whole state unchanged. -/
theorem c8_use_mp_spec (p : Player) (e : Enemy) (a : ℚ) (ha : 0 ≤ a) :
    (((p.use_mp a).1 = true ∧ (p.use_mp a).2 = { p with current_mp := p.current_mp - a })
      ↔ a ≤ p.current_mp)
  ∧ (¬ a ≤ p.current_mp → p.use_mp a = (false, p))
  ∧ (((e.use_mp a).1 = true ∧ (e.use_mp a).2 = { e with current_mp := e.current_mp - a })
      ↔ a ≤ e.current_mp)
  ∧ (¬ a ≤ e.current_mp → e.use_mp a = (false, e)) := by
  refine ⟨?_, ?_, ?_, ?_⟩
  · unfold Player.use_mp
    by_cases h : a ≤ p.current_mp <;> simp [h]
  · unfold Player.use_mp
    intro h
    simp [h]
  · unfold Enemy.use_mp
    by_cases h : a ≤ e.current_mp <;> simp [h]
  · unfold Enemy.use_mp
    intro h
    simp [h]

/-- Claim C8, witness: at 10 MP cost with 20 MP available the deduction
happens and is exact. -/
theorem c8_use_mp_spec_witness :
    (0 : ℚ) ≤ 10 ∧ (10 : ℚ) ≤ examplePlayer.current_mp
  ∧ (examplePlayer.use_mp 10).1 = true
  ∧ (examplePlayer.use_mp 10).2
      = { examplePlayer with current_mp := examplePlayer.current_mp - 10 } := by
  have h := (c8_use_mp_spec examplePlayer exampleEnemy 10 (by norm_num)).1.mpr
    (by norm_num [examplePlayer])
  exact ⟨by norm_num, by norm_num [examplePlayer], h.1, h.2⟩

/-- Claim C10: a non-positive raw amount still deals at least 1 damage to
the player (who clamps the input at 0 first) and exactly 1 to an enemy
with non-negative defense, and `take_damage` never raises `current_hp`. -/
theorem c10_nonpositive_damage (p : Player) (e : Enemy) (d : ℚ)
    (hd : d ≤ 0) (hphp : 0 ≤ p.current_hp) (hehp : 0 ≤ e.current_hp)
    (hdef : 0 ≤ e.stats.defense) :
    (1 ≤ (p.take_damage d).1 ∧ (p.take_damage d).2.current_hp ≤ p.current_hp)
  ∧ ((e.take_damage d).1 = 1 ∧ (e.take_damage d).2.current_hp ≤ e.current_hp) := by
  have hdq : (0 : ℚ) ≤ (e.stats.defense : ℚ) := by exact_mod_cast hdef
  have heff : (0 : ℚ) ≤
      (if e.is_defending then ((pytrunc ((e.stats.defense : ℚ) * (3/2)) : ℤ) : ℚ)
       else (e.stats.defense : ℚ)) := by
    split
    · exact_mod_cast pytrunc_nonneg (by linarith)
    · exact hdq
  simp only [Player.take_damage, Enemy.take_damage]
  refine ⟨⟨le_max_left _ _, ?_⟩, ?_, ?_⟩
  · have h1 : (1 : ℚ) ≤ max 1 (max 0 d - p.secondary_stats.defense) := le_max_left _ _
    exact max_le hphp (by linarith)
  · exact max_eq_left (by linarith)
  · have h1 : max 1
        (d - if e.is_defending then ((pytrunc ((e.stats.defense : ℚ) * (3/2)) : ℤ) : ℚ)
             else (e.stats.defense : ℚ)) = 1 := max_eq_left (by linarith)
    rw [h1]
    exact max_le hehp (by linarith)

/-- Claim C10, witness: a heavily-armoured defending enemy hit for -5 takes
exactly 1, and a player hit for -5 takes at least 1 without healing. -/
theorem c10_nonpositive_damage_witness :
    ((-5 : ℚ) ≤ 0 ∧ (0 : ℚ) ≤ examplePlayer.current_hp
      ∧ (0 : ℚ) ≤ exampleEnemy.current_hp ∧ (0 : ℤ) ≤ exampleEnemy.stats.defense)
  ∧ (exampleEnemy.take_damage (-5)).1 = 1
  ∧ (examplePlayer.take_damage (-5)).2.current_hp ≤ examplePlayer.current_hp :=
  ⟨⟨by norm_num, by norm_num [examplePlayer], by norm_num [exampleEnemy], by decide⟩,
   (c10_nonpositive_damage examplePlayer exampleEnemy (-5) (by norm_num)
      (by norm_num [examplePlayer]) (by norm_num [exampleEnemy]) (by decide)).2.1,
   (c10_nonpositive_damage examplePlayer exampleEnemy (-5) (by norm_num)
      (by norm_num [examplePlayer]) (by norm_num [exampleEnemy]) (by decide)).1.2⟩

/-- `level_up` raises the level by one (projection fact). -/
theorem level_up_level (p : Player) : p.level_up.level = p.level + 1 := rfl

/-- `level_up` consumes one threshold of experience (projection fact). -/
theorem level_up_experience (p : Player) :
    p.level_up.experience = p.experience - p.experience_to_next := rfl

/-- `level_up` rescales the threshold (projection fact). -/
theorem level_up_experience_to_next (p : Player) :
    p.level_up.experience_to_next = nextThreshold p.experience_to_next := rfl

/-- For thresholds ≥ 5 the ×1.2-truncated threshold strictly grows. -/
theorem nextThreshold_gt {t : ℕ} (ht : 5 ≤ t) : t + 1 ≤ nextThreshold t := by
  unfold nextThreshold
  rw [Nat.le_div_iff_mul_le (by norm_num)]
  omega

/-- Invariants of the level-up loop: with a threshold ≥ 5 and enough fuel,
the loop ends with experience strictly below the (never decreased)
threshold, and whenever at least one level-up fires, both the level and
the threshold strictly increase. -/
theorem levelLoopFuel_spec (fuel : ℕ) : ∀ p : Player,
    5 ≤ p.experience_to_next → p.experience ≤ fuel →
    (levelLoopFuel fuel p).experience < (levelLoopFuel fuel p).experience_to_next
    ∧ 5 ≤ (levelLoopFuel fuel p).experience_to_next
    ∧ p.experience_to_next ≤ (levelLoopFuel fuel p).experience_to_next
    ∧ p.level ≤ (levelLoopFuel fuel p).level
    ∧ (p.experience_to_next ≤ p.experience →
        p.level < (levelLoopFuel fuel p).level
        ∧ p.experience_to_next < (levelLoopFuel fuel p).experience_to_next) := by
  induction fuel with
  | zero =>
    intro p ht he
    simp only [levelLoopFuel]
    omega
  | succ fuel ih =>
    intro p ht he
    by_cases h : p.experience_to_next ≤ p.experience
    · have e1 : levelLoopFuel (fuel + 1) p = levelLoopFuel fuel p.level_up := by
        simp [levelLoopFuel, h]
      have hl := level_up_level p
      have hx := level_up_experience p
      have ht2 := level_up_experience_to_next p
      have hnext := nextThreshold_gt ht
      obtain ⟨q1, q2, q3, q4, q5⟩ := ih p.level_up (by omega) (by omega)
      rw [e1]
      refine ⟨q1, q2, by omega, by omega, fun _ => ⟨by omega, by omega⟩⟩
    · have e1 : levelLoopFuel (fuel + 1) p = p := by
        simp [levelLoopFuel, h]
      rw [e1]
      exact ⟨by omega, ht, le_refl _, le_refl _, by omega⟩

/-- Claim C4: gaining experience ≥ the current threshold raises the level
by at least 1, and afterwards experience sits strictly below the new
threshold, which is strictly larger than the old one (rescaled
`int(threshold * 1.2)` at each level-up).  The hypothesis `5 ≤ threshold`
holds for every reachable threshold (they start at 100 and never
decrease). -/
theorem c4_gain_experience_levels (p : Player) (k : ℕ)
    (ht : 5 ≤ p.experience_to_next) (hk : p.experience_to_next ≤ k) :
    p.level + 1 ≤ (p.gain_experience k).level
  ∧ (p.gain_experience k).experience < (p.gain_experience k).experience_to_next
  ∧ p.experience_to_next < (p.gain_experience k).experience_to_next := by
  unfold Player.gain_experience
  obtain ⟨q1, q2, q3, q4, q5⟩ :=
    levelLoopFuel_spec (p.experience + k) { p with experience := p.experience + k }
      ht (le_refl _)
  obtain ⟨q6, q7⟩ := q5 (by simpa using by omega)
  exact ⟨by simpa using q6, q1, q7⟩

/-- Claim C4, witness: a fresh player (threshold 100) gaining 250
experience levels up at least once and lands below the strictly larger new
threshold. -/
theorem c4_gain_experience_levels_witness :
    (5 ≤ examplePlayer.experience_to_next ∧ examplePlayer.experience_to_next ≤ 250)
  ∧ (examplePlayer.level + 1 ≤ (examplePlayer.gain_experience 250).level
     ∧ (examplePlayer.gain_experience 250).experience
         < (examplePlayer.gain_experience 250).experience_to_next
     ∧ examplePlayer.experience_to_next
         < (examplePlayer.gain_experience 250).experience_to_next) :=
  ⟨⟨by decide, by decide⟩,
   c4_gain_experience_levels examplePlayer 250 (by decide) (by decide)⟩

/-- Stable descending insertion is a permutation with the inserted head. -/
theorem sortedInsertDesc_perm (x : ActorRef × ℚ) (l : List (ActorRef × ℚ)) :
    (sortedInsertDesc x l).Perm (x :: l) := by
  induction l with
  | nil => simp [sortedInsertDesc]
  | cons y ys ih =>
    unfold sortedInsertDesc
    by_cases h : y.2 ≤ x.2
    · rw [if_pos h]
    · rw [if_neg h]
      exact (List.Perm.cons y ih).trans (List.Perm.swap x y ys)

/-- The stable descending sort permutes its input. -/
theorem stableSortDesc_perm (l : List (ActorRef × ℚ)) :
    (stableSortDesc l).Perm l := by
  induction l with
  | nil => simp [stableSortDesc]
  | cons x xs ih =>
    exact (sortedInsertDesc_perm x (stableSortDesc xs)).trans (List.Perm.cons x ih)

/-- Inserting into a descending-sorted list keeps it descending-sorted. -/
theorem sortedInsertDesc_pairwise (x : ActorRef × ℚ) (l : List (ActorRef × ℚ))
    (h : l.Pairwise (fun a b => b.2 ≤ a.2)) :
    (sortedInsertDesc x l).Pairwise (fun a b => b.2 ≤ a.2) := by
  induction l with
  | nil => simp [sortedInsertDesc]
  | cons y ys ih =>
    rw [List.pairwise_cons] at h
    obtain ⟨hy, hys⟩ := h
    unfold sortedInsertDesc
    by_cases hc : y.2 ≤ x.2
    · rw [if_pos hc]
      refine List.Pairwise.cons ?_ (List.Pairwise.cons hy hys)
      intro z hz
      rcases List.mem_cons.mp hz with hz | hz
      · exact hz ▸ hc
      · exact le_trans (hy z hz) hc
    · rw [if_neg hc]
      refine List.Pairwise.cons ?_ (ih hys)
      intro z hz
      rcases List.mem_cons.mp ((sortedInsertDesc_perm x ys).mem_iff.mp hz) with hz | hz
      · exact hz ▸ le_of_lt (lt_of_not_le hc)
      · exact hy z hz

/-- The stable descending sort yields a descending initiative sequence. -/
theorem stableSortDesc_pairwise (l : List (ActorRef × ℚ)) :
    (stableSortDesc l).Pairwise (fun a b => b.2 ≤ a.2) := by
  induction l with
  | nil => simp [stableSortDesc]
  | cons x xs ih => exact sortedInsertDesc_pairwise x (stableSortDesc xs) ih

/-- The enemy initiative list pairs the enemy references, in order, with
their rolled initiatives. -/
theorem enemyInitiatives_map_fst (es : List Enemy) : ∀ (i : ℕ) (g : RNG),
    ((enemyInitiatives i es g).1).map Prod.fst
      = (List.range es.length).map (fun k => ActorRef.enemy (i + k)) := by
  induction es with
  | nil => intro i g; simp [enemyInitiatives]
  | cons e rest ih =>
    intro i g
    have h1 : ((enemyInitiatives i (e :: rest) g).1).map Prod.fst
        = ActorRef.enemy i
          :: ((enemyInitiatives (i + 1) rest (pyRandint 1 10 g).2).1).map Prod.fst := by
      simp [enemyInitiatives]
    rw [h1, ih, List.length_cons, List.range_succ_eq_map, List.map_cons, List.map_map]
    congr 1
    simp [Function.comp]
    omega

/-- The initiative list built by `_initialize_turn_order` references the
player followed by each enemy index in order. -/
theorem initiativePairs_map_fst (s : CombatState) (g : RNG) :
    ((initiativePairs s g).1).map Prod.fst
      = ActorRef.player :: (List.range s.enemies.length).map ActorRef.enemy := by
  unfold initiativePairs
  simp only [List.map_cons, enemyInitiatives_map_fst]
  congr 1
  refine List.map_congr_left fun k _ => ?_
  simp

/-- When every entry of the turn order passes the skip check, the skip loop
returns its starting index at once. -/
theorem skipDead_okay (s : CombatState) (fuel idx : ℕ)
    (hidx : idx < s.turn_order.length)
    (hok : ∀ a ∈ s.turn_order, actorOkay s a = true) :
    skipDead s (fuel + 1) idx = idx := by
  simp only [skipDead, List.getElem?_eq_getElem hidx]
  rw [hok _ (List.getElem_mem hidx)]
  simp

/-- With every participant alive, `_advance_turn` is plain increment
modulo the roster size. -/
theorem advance_turn_all_alive (s : CombatState)
    (hne : s.turn_order ≠ [])
    (hok : ∀ a ∈ s.turn_order, actorOkay s a = true) :
    advance_turn s
      = { s with current_turn_index :=
            (s.current_turn_index + 1) % s.turn_order.length } := by
  have hn : 0 < s.turn_order.length := List.length_pos.mpr hne
  obtain ⟨m, hm⟩ : ∃ m, s.turn_order.length = m + 1 := ⟨s.turn_order.length - 1, by omega⟩
  have hidx2 : (s.current_turn_index + 1) % (m + 1) < s.turn_order.length := by
    rw [hm]
    exact Nat.mod_lt _ (by omega)
  simp only [advance_turn]
  rw [hm, skipDead_okay s m _ hidx2 hok]

/-- Iterating `_advance_turn` from an in-range index over an all-alive
roster walks the index around the ring. -/
theorem advance_turn_iterate (s : CombatState)
    (hne : s.turn_order ≠ [])
    (hok : ∀ a ∈ s.turn_order, actorOkay s a = true)
    (hidx : s.current_turn_index < s.turn_order.length) :
    ∀ k : ℕ, (advance_turn)^[k] s
      = { s with current_turn_index :=
            (s.current_turn_index + k) % s.turn_order.length } := by
  intro k
  induction k with
  | zero =>
    rw [Function.iterate_zero_apply, Nat.add_zero, Nat.mod_eq_of_lt hidx]
  | succ k ihk =>
    rw [Function.iterate_succ_apply', ihk,
      advance_turn_all_alive
        { s with current_turn_index := (s.current_turn_index + k) % s.turn_order.length }
        hne hok]
    simp only [Nat.mod_add_mod, Nat.add_assoc]

/-- Claim C6: the turn order built at encounter start is a permutation of
the player plus all enemies present at start, sorted descending by the
rolled initiatives (stably, by construction of `stableSortDesc`); and over
an all-alive roster, advancing the turn `len(turn_order)` times returns
the turn to the original holder (same index, same order). -/
theorem c6_turn_order_perm_cycle :
    (∀ (s : CombatState) (g : RNG),
       ((initialize_turn_order s g).1.turn_order).Perm
         (ActorRef.player :: (List.range s.enemies.length).map ActorRef.enemy)
       ∧ (((stableSortDesc (initiativePairs s g).1).map Prod.snd).Pairwise
            (fun a b => b ≤ a)))
  ∧ (∀ s : CombatState,
       s.turn_order ≠ [] →
       (∀ a ∈ s.turn_order, actorOkay s a = true) →
       s.current_turn_index < s.turn_order.length →
       ((advance_turn)^[s.turn_order.length] s).current_turn_index
           = s.current_turn_index
       ∧ ((advance_turn)^[s.turn_order.length] s).turn_order = s.turn_order) := by
  constructor
  · intro s g
    constructor
    · show ((stableSortDesc (initiativePairs s g).1).map Prod.fst).Perm _
      rw [← initiativePairs_map_fst s g]
      exact (stableSortDesc_perm (initiativePairs s g).1).map Prod.fst
    · rw [List.pairwise_map]
      exact stableSortDesc_pairwise (initiativePairs s g).1
  · intro s hne hok hidx
    rw [advance_turn_iterate s hne hok hidx s.turn_order.length]
    constructor
    · show (s.current_turn_index + s.turn_order.length) % s.turn_order.length
          = s.current_turn_index
      rw [Nat.add_mod_right, Nat.mod_eq_of_lt hidx]
    · rfl

/-- Claim C6, witness: in the two-participant example state with both
combatants alive, two advances return the turn to the original holder. -/
theorem c6_turn_order_perm_cycle_witness :
    (exampleCombatState.turn_order ≠ []
     ∧ (∀ a ∈ exampleCombatState.turn_order, actorOkay exampleCombatState a = true)
     ∧ exampleCombatState.current_turn_index < exampleCombatState.turn_order.length)
  ∧ ((advance_turn)^[exampleCombatState.turn_order.length]
        exampleCombatState).current_turn_index
      = exampleCombatState.current_turn_index :=
  ⟨⟨by simp [exampleCombatState],
    by
      intro a ha
      simp [exampleCombatState] at ha
      rcases ha with h | h <;>
        norm_num [h, actorOkay, exampleCombatState, exampleEnemy, Enemy.is_alive],
    by simp [exampleCombatState]⟩,
   (c6_turn_order_perm_cycle.2 exampleCombatState (by simp [exampleCombatState])
      (by
        intro a ha
        simp [exampleCombatState] at ha
        rcases ha with h | h <;>
          norm_num [h, actorOkay, exampleCombatState, exampleEnemy, Enemy.is_alive])
      (by simp [exampleCombatState])).1⟩

/-- Claim C9: the player's MagicAttack pays its 10 MP cost before the
dodge check, so against a lone living target whose dodge roll succeeds,
the action ends with exactly 10 MP deducted and every other part of the
combat state (target HP included) unchanged, and only the one dodge draw
consumed. -/
theorem c9_magic_attack_mp_spent_on_dodge
    (s : CombatState) (e : Enemy) (r : ℚ) (fs : List ℚ) (is : List ℤ) (ts : List ℕ)
    (henemies : s.enemies = [e])
    (halive : e.is_alive = true)
    (hmp : (10 : ℚ) ≤ s.player.current_mp)
    (hr : r * 100 < min 95 ((e.stats.agility : ℚ) * (1/2))) :
    player_magic_attack s ts { floats := r :: fs, ints := is }
      = ({ s with player := { s.player with current_mp := s.player.current_mp - 10 } },
         ts, { floats := fs, ints := is }) := by
  obtain ⟨hr1, hr2⟩ := lt_min_iff.mp hr
  simp [player_magic_attack, Player.use_mp, hmp, aliveIdx, henemies, halive,
    Enemy.can_dodge, RNG.nextFloat, hr1, hr2, popTarget, List.range_succ,
    List.range_zero, List.filter_cons, List.find?_cons, List.getElem?_cons_zero]
  intro hcontra
  rw [one_div] at hr2
  exact absurd hr2 (not_lt.mpr hcontra)

/-- Claim C9, witness: with 20 MP against the dodge-capped enemy and a
dodge draw of 0, the attack costs 10 MP and changes nothing else. -/
theorem c9_magic_attack_mp_spent_on_dodge_witness :
    (magicCombatState.enemies = [dodgyEnemy]
     ∧ dodgyEnemy.is_alive = true
     ∧ (10 : ℚ) ≤ magicCombatState.player.current_mp
     ∧ (0 : ℚ) * 100 < min 95 ((dodgyEnemy.stats.agility : ℚ) * (1/2)))
  ∧ player_magic_attack magicCombatState [] { floats := [0], ints := [] }
      = ({ magicCombatState with
            player := { magicCombatState.player with
                          current_mp := magicCombatState.player.current_mp - 10 } },
         [], { floats := [], ints := [] }) :=
  ⟨⟨rfl, by norm_num [Enemy.is_alive, dodgyEnemy],
    by norm_num [magicCombatState, examplePlayer],
    by norm_num [dodgyEnemy]⟩,
   c9_magic_attack_mp_spent_on_dodge magicCombatState dodgyEnemy 0 [] [] [] rfl
     (by norm_num [Enemy.is_alive, dodgyEnemy])
     (by norm_num [magicCombatState, examplePlayer])
     (by norm_num [dodgyEnemy])⟩

set_option maxHeartbeats 2000000

/-- Full evaluation of one completed round of the scenario encounter
(player defends, enemy attacks for 5 halved to 2 against defense 2): the
poison effect is processed after the player's action AND after the enemy's
action, so its duration drops twice, the player loses 5 + 1 + 5 HP, and
the turn returns to the original holder. -/
theorem scenarioRun_eval (d : ℤ) (h1 : ¬ (d - 1 ≤ 0)) (h2 : ¬ (d - 1 - 1 ≤ 0)) :
    scenarioRun d
      = (none, roundState true 89 (d - 1 - 1) 0, [], [],
         { floats := [], ints := [] }) := by
  have hd1 : 1 < d := by omega
  have hd2 : 2 < d := by omega
  have h31 : ¬ (("3" : String) = "1") := by decide
  have h32 : ¬ (("3" : String) = "2") := by decide
  have hf1 : ⌊(3 : ℚ)/4⌋ = 0 := by
    rw [Int.floor_eq_iff]
    norm_num
  have hf2 : ⌊(5 : ℚ)/2⌋ = 2 := by
    rw [Int.floor_eq_iff]
    norm_num
  have hf3 : ⌊(5 : ℚ)⌋ = 5 := by
    rw [Int.floor_eq_iff]
    norm_num
  have hA : start_combat (scenarioPlayer d) [scenarioEnemy]
        { floats := [0, 0, 0], ints := [10, 1, 30, 5] }
      = (roundState false 100 d 0, { floats := [0, 0, 0], ints := [30, 5] }) := by
    norm_num [start_combat, initialize_turn_order, initiativePairs, enemyInitiatives,
      pyRandint, RNG.nextInt, stableSortDesc, sortedInsertDesc, scenarioPlayer,
      scenarioEnemy, roundState, max_def, min_def]
  have hchk : ∀ (b : Bool) (hp : ℚ) (d' : ℤ) (idx : ℕ), 0 < hp →
      check_combat_end (roundState b hp d' idx) = CombatResult.ongoing := by
    intro b hp d' idx hhp
    norm_num [check_combat_end, roundState, Player.is_alive, Enemy.is_alive,
      scenarioEnemy, hhp]
  have hBturn : process_player_turn (roundState false 100 d 0) ["3"] []
        { floats := [0, 0, 0], ints := [30, 5] }
      = (roundState true 100 d 0, [], [], { floats := [0, 0, 0], ints := [30, 5] }) := by
    simp [process_player_turn, playerMenuLoop, player_defend, roundState, h31, h32]
  have hBstat : process_status_effects (roundState true 100 d 0)
      = roundState true 95 (d - 1) 0 := by
    norm_num [process_status_effects, Player.process_status_effects, applyPlayerEffect,
      Enemy.process_status_effects, roundState, scenarioEnemy, Enemy.is_alive,
      h1, hd1, hf3, pytrunc, max_def]
  have hBadv : advance_turn (roundState true 95 (d - 1) 0)
      = roundState true 95 (d - 1) 1 := by
    norm_num [advance_turn, skipDead, actorOkay, roundState, scenarioEnemy,
      Enemy.is_alive]
  have hCenemy : process_enemy_turn 0 (roundState true 95 (d - 1) 1)
        { floats := [0, 0, 0], ints := [30, 5] }
      = (roundState true 94 (d - 1) 1, { floats := [], ints := [] }) := by
    norm_num [process_enemy_turn, roundState, scenarioEnemy, Enemy.is_alive, setEnemy,
      Enemy.choose_action, pickWeighted, pyRandint, RNG.nextInt, RNG.nextFloat,
      enemy_attack, Player.can_dodge, Enemy.get_attack_damage, Enemy.can_crit,
      pytrunc, hf1, hf2, Player.take_damage, max_def, min_def]
  have hCstat : process_status_effects (roundState true 94 (d - 1) 1)
      = roundState true 89 (d - 1 - 1) 1 := by
    norm_num [process_status_effects, Player.process_status_effects, applyPlayerEffect,
      Enemy.process_status_effects, roundState, scenarioEnemy, Enemy.is_alive,
      h2, hd2, hf3, pytrunc, max_def]
  have hCadv : advance_turn (roundState true 89 (d - 1 - 1) 1)
      = roundState true 89 (d - 1 - 1) 0 := by
    norm_num [advance_turn, skipDead, actorOkay, roundState, scenarioEnemy,
      Enemy.is_alive]
  have hchk100 : ∀ (b : Bool) (d' : ℤ) (idx : ℕ),
      check_combat_end (roundState b 100 d' idx) = CombatResult.ongoing :=
    fun b d' idx => hchk b 100 d' idx (by norm_num)
  have hchk95 : ∀ (b : Bool) (d' : ℤ) (idx : ℕ),
      check_combat_end (roundState b 95 d' idx) = CombatResult.ongoing :=
    fun b d' idx => hchk b 95 d' idx (by norm_num)
  have hchk89 : ∀ (b : Bool) (d' : ℤ) (idx : ℕ),
      check_combat_end (roundState b 89 d' idx) = CombatResult.ongoing :=
    fun b d' idx => hchk b 89 d' idx (by norm_num)
  have hact : ∀ (b : Bool) (hp : ℚ) (d' : ℤ) (idx : ℕ),
      (roundState b hp d' idx).combat_active = true := fun _ _ _ _ => rfl
  have hord : ∀ (b : Bool) (hp : ℚ) (d' : ℤ) (idx : ℕ),
      (roundState b hp d' idx).turn_order = [ActorRef.player, ActorRef.enemy 0] :=
    fun _ _ _ _ => rfl
  have hix : ∀ (b : Bool) (hp : ℚ) (d' : ℤ) (idx : ℕ),
      (roundState b hp d' idx).current_turn_index = idx := fun _ _ _ _ => rfl
  have hrun : runCombatLoop 2 (roundState false 100 d 0) ["3"] []
        { floats := [0, 0, 0], ints := [30, 5] }
      = (none, roundState true 89 (d - 1 - 1) 0, [], [],
         { floats := [], ints := [] }) := by
    simp [runCombatLoop, hact, hord, hix, hchk100, hchk95, hchk89,
      hBturn, hBstat, hBadv, hCenemy, hCstat, hCadv]
  show (let r := start_combat (scenarioPlayer d) [scenarioEnemy]
          { floats := [0, 0, 0], ints := [10, 1, 30, 5] }
        runCombatLoop 2 r.1 ["3"] [] r.2) = _
  rw [hA]
  exact hrun

/-- Claim C2, counterexample: in an encounter whose round consists of the
player's action then one enemy's action, a poison effect of duration 4 on
the player stands at duration 2 — not 3 — once the round has completed
(turn index back at the original holder): status effects were processed
after each individual action, not exactly once per completed round. -/
theorem c2_round_processing_counterexample :
    (scenarioRun 4).2.1.current_turn_index = 0
  ∧ (scenarioRun 4).2.1.turn_order = [ActorRef.player, ActorRef.enemy 0]
  ∧ (scenarioRun 4).2.1.player.status_effects
      = [{ name := "Poison", type := "poison", duration := 2 }]
  ∧ (2 : ℤ) ≠ 4 - 1 := by
  rw [scenarioRun_eval 4 (by norm_num) (by norm_num)]
  refine ⟨rfl, rfl, ?_, by norm_num⟩
  simp [roundState]

/-- Claim C2 (amended): during an encounter, status effects are processed
for the player and then for each living enemy once after every individual
combatant action — hence `len(turn_order)` times per completed round, not
once: over one completed round of the two-participant scenario (the turn
returns to its original holder), a player poison of duration d ≥ 3 ticks
down to d − 2, not d − 1. -/
theorem c2_status_effects_per_action (d : ℤ) (hd : 3 ≤ d) :
    (scenarioRun d).1 = none
  ∧ (scenarioRun d).2.1.current_turn_index = 0
  ∧ (scenarioRun d).2.1.turn_order = [ActorRef.player, ActorRef.enemy 0]
  ∧ (scenarioRun d).2.1.player.status_effects
      = [{ name := "Poison", type := "poison", duration := d - 2 }]
  ∧ d - 2 ≠ d - 1 := by
  rw [scenarioRun_eval d (by omega) (by omega)]
  refine ⟨rfl, rfl, rfl, ?_, by omega⟩
  simp [roundState]
  omega

/-- Claim C2, witness: the amended statement at poison duration 5 — after
one completed round the duration is 3. -/
theorem c2_status_effects_per_action_witness :
    (3 : ℤ) ≤ 5
  ∧ (scenarioRun 5).2.1.current_turn_index = 0
  ∧ (scenarioRun 5).2.1.player.status_effects
      = [{ name := "Poison", type := "poison", duration := 5 - 2 }] :=
  ⟨by norm_num, (c2_status_effects_per_action 5 (by norm_num)).2.1,
   (c2_status_effects_per_action 5 (by norm_num)).2.2.2.1⟩
